import Mathlib

/-!
Verification of the price-ladder / lot-sizing calculator (src/calcu.py).

The Python source computes over floats and pandas Series; the embedding
models every quantity as an exact rational.  Pandas produces the
non-finite values NaN and plus/minus infinity on division by zero and
propagates them through arithmetic; here a column cell is `Option ℚ`,
with `none` standing for any non-finite value.  No operation of the
program ever divides by a non-finite value, so collapsing NaN and the
two infinities into a single `none` is faithful: every arithmetic
operation with a non-finite operand is again non-finite, and the
`replace([inf, -inf, nan], 0)` calls of the source become `Option.getD 0`.

Source functions are kept under their Python names inside the `Calcu`
namespace.  Definitions whose names start with `spec` transcribe the
wording of the specification (not the code) and are compared against the
code-derived definitions in the theorems below.
-/

namespace Calcu

/-- Global constant of the source: 1 lot = 100 units. -/
def LOTES_A_UNIDADES : ℚ := 100

/-- Global constant of the source: price step of 15 units. -/
def PASO : ℚ := 15

/-- Global constant of the source: total span of 120 units. -/
def TOTAL_UNIDADES : ℚ := 120

/-- Global constant of the source: default lot divisor. -/
def DIVISOR_LOTE : ℚ := 1.5932

/-- Global constant of the source: extra divisor for the Conservative option. -/
def DIVISOR_CONSERVADOR : ℚ := 2.11

/-- Global constant of the source: divisor for the VeryAggressive option. -/
def DIVISOR_MUY_AGRESIVA : ℚ := 1.6

/-- Global constant of the source: divisor for the SemiAggressive option. -/
def DIVISOR_SEMI_AGRESIVA : ℚ := 2.25

/-- Embedding of `generar_precios`: the price ladder.  Python raises
`ValueError` on an unrecognized direction, modelled by `Except.error`;
`//` is floor division. -/
def generar_precios (precio_inicial total_unidades paso : ℚ)
    (direccion : String) : Except String (List ℚ) :=
  let numero_puntos := (⌊total_unidades / paso⌋).toNat + 1
  if direccion = "bajada" then
    Except.ok ((List.range numero_puntos).map (fun i : ℕ => precio_inicial - (i : ℚ) * paso))
  else if direccion = "subida" then
    Except.ok ((List.range numero_puntos).map (fun i : ℕ => precio_inicial + (i : ℚ) * paso))
  else
    Except.error "La direccion debe ser bajada o subida."

/-- The difference-based lot table: the `else` branch of `asignar_lotes`
for indices not covered by the index-position cases (i >= 9). -/
def lote_por_diferencia (diferencia : ℚ) : ℚ :=
  if 0 ≤ diferencia ∧ diferencia ≤ 15 then 0.5
  else if diferencia = 20 then 0.0
  else if diferencia = 25 ∨ diferencia = 30 then 2.0
  else if 35 ≤ diferencia ∧ diferencia ≤ 55 then
    (if diferencia = 55 then 0.0 else 0.625)
  else if diferencia = 60 then 6.0
  else if 65 ≤ diferencia ∧ diferencia ≤ 90 then 2.0
  else if 91 ≤ diferencia ∧ diferencia ≤ 94 then 1.5
  else if 95 ≤ diferencia ∧ diferencia ≤ 120 then 3.375
  else 0.5

/-- One loop iteration of `asignar_lotes`: the lots appended for index
`i` and price `precio`.  The Python loop body appends at most one lot;
when `opcion` matches no branch at index 5 or 7 it appends nothing,
which is why the result is a (possibly empty) list. -/
def loteBase (precio_inicial : ℚ) (opcion : ℤ) (i : ℕ) (precio : ℚ) : List ℚ :=
  if i = 0 then [1.0]
  else if i = 1 then [1.4]
  else if i = 2 then [2.4]
  else if i = 3 then [2]
  else if i = 4 then [2.4 * 1.3]
  else if i = 5 then
    (if opcion = 1 then [0]
     else if opcion = 2 ∨ opcion = 3 ∨ opcion = 4 ∨ opcion = 5 ∨ opcion = 6 then [2.4 * 1.3]
     else if opcion = 7 then [2]
     else [])
  else if i = 6 then [3 * 1.5]
  else if i = 7 then
    (if opcion = 1 ∨ opcion = 7 then [0]
     else if opcion = 2 then [3]
     else if opcion = 3 ∨ opcion = 4 ∨ opcion = 5 ∨ opcion = 6 then [3]
     else [])
  else if i = 8 then [4 * 1.5]
  else [lote_por_diferencia (|precio_inicial - precio|)]

/-- The `for i, precio in enumerate(precios)` loop of `asignar_lotes`,
carrying the running index. -/
def lotesBaseAux (precio_inicial : ℚ) (opcion : ℤ) : ℕ → List ℚ → List ℚ
  | _, [] => []
  | i, precio :: resto =>
      loteBase precio_inicial opcion i precio ++ lotesBaseAux precio_inicial opcion (i + 1) resto

/-- The pre-scaling lot list built by the loop of `asignar_lotes`. -/
def lotesBase (precio_inicial : ℚ) (precios : List ℚ) (opcion : ℤ) : List ℚ :=
  lotesBaseAux precio_inicial opcion 0 precios

/-- Embedding of `asignar_lotes`: base lots from the loop, then the
per-option scaling applied to every lot. -/
def asignar_lotes (precio_inicial : ℚ) (precios : List ℚ) (opcion : ℤ) : List ℚ :=
  let lotes := lotesBase precio_inicial precios opcion
  if opcion = 3 then lotes.map (fun lote => lote / DIVISOR_CONSERVADOR)
  else if opcion = 4 then lotes.map (fun lote => (lote * 1.25) / DIVISOR_MUY_AGRESIVA)
  else if opcion = 5 then lotes.map (fun lote => (lote * 1.25) / DIVISOR_SEMI_AGRESIVA)
  else if opcion = 6 then lotes.map (fun lote => (lote * 1.25 * 1.2) / DIVISOR_MUY_AGRESIVA)
  else lotes.map (fun lote => lote / DIVISOR_LOTE)

/-- A pandas cell: `some q` is the finite value `q`; `none` is any
non-finite value (NaN or plus/minus infinity). -/
abbrev EV := Option ℚ

/-- Addition on cells; any non-finite operand yields a non-finite result. -/
def evAdd : EV → EV → EV
  | some a, some b => some (a + b)
  | _, _ => none

/-- Subtraction on cells. -/
def evSub : EV → EV → EV
  | some a, some b => some (a - b)
  | _, _ => none

/-- Multiplication on cells.  (IEEE `inf * 0 = nan` is again non-finite,
so absorbing `none` is faithful.) -/
def evMul : EV → EV → EV
  | some a, some b => some (a * b)
  | _, _ => none

/-- Division on cells: division by zero is non-finite (`0/0 = nan`,
`x/0 = inf` or `-inf`), as in pandas. -/
def evDiv : EV → EV → EV
  | some a, some b => if b = 0 then none else some (a / b)
  | _, _ => none

/-- Absolute value on cells (`abs nan = nan`, `abs inf = inf`). -/
def evAbs : EV → EV
  | some a => some |a|
  | none => none

/-- Running-sum helper: `cumsumFrom acc xs` is pandas `cumsum` started
from the partial sum `acc`. -/
def cumsumFrom (acc : ℚ) : List ℚ → List ℚ
  | [] => []
  | x :: xs => (acc + x) :: cumsumFrom (acc + x) xs

/-- Pandas `Series.cumsum` on a finite column. -/
def cumsum (xs : List ℚ) : List ℚ := cumsumFrom 0 xs

/-- Three-column elementwise combination (pandas aligns columns of the
same frame, so the three lists always have equal length at use sites). -/
def zipWith3 (f : α → β → γ → δ) : List α → List β → List γ → List δ
  | a :: as, b :: bs, c :: cs => f a b c :: zipWith3 f as bs cs
  | _, _, _ => []

/-- The columns of the dataframe produced by `calcular_acumulados`.
Finite-by-construction columns are `List ℚ`; columns that can contain
non-finite values are `List EV`.  `aumentoNecesario` is stored after the
source's `replace([inf, -inf, nan], 0)`, hence finite. -/
structure DF where
  precio : List ℚ
  lotes : List ℚ
  lotesAcumulados : List ℚ
  breakEven : List EV
  flotante : List EV
  puntosDeSalida : List EV
  aumentoNecesario : List ℚ
  gananciaAlRegresar : List ℚ

/-- Source line 121: `(Precio * Lotes * 100).cumsum() / (LotesAcumulados * 100)`. -/
def colBreakEven (precios lotes : List ℚ) : List EV :=
  List.zipWith (fun n a => evDiv (some n) (some (a * LOTES_A_UNIDADES)))
    (cumsum (List.zipWith (fun p l => p * l * LOTES_A_UNIDADES) precios lotes))
    (cumsum lotes)

/-- Source line 122: `(Precio - BreakEven) * LotesAcumulados * 100`. -/
def colFlotante (precios lotes : List ℚ) : List EV :=
  zipWith3 (fun p be a => evMul (evMul (evSub (some p) be) (some a)) (some LOTES_A_UNIDADES))
    precios (colBreakEven precios lotes) (cumsum lotes)

/-- Source lines 124-127: signed for subida, absolute for any other direction. -/
def colPuntosDeSalida (precios lotes : List ℚ) (direccion : String) : List EV :=
  if direccion = "subida" then
    List.zipWith (fun be p => evSub be (some p)) (colBreakEven precios lotes) precios
  else
    List.zipWith (fun p be => evAbs (evSub (some p) be)) precios (colBreakEven precios lotes)

/-- Source lines 129 and 136: `(BreakEven + 5000 / (LotesAcumulados * 100)) - Precio`,
then `replace([inf, -inf, nan], 0)`, which is `Option.getD 0` here. -/
def colAumentoNecesario (precios lotes : List ℚ) : List ℚ :=
  (zipWith3 (fun be a p =>
      evSub (evAdd be (evDiv (some 5000) (some (a * LOTES_A_UNIDADES)))) (some p))
    (colBreakEven precios lotes) (cumsum lotes) precios).map (fun v => v.getD 0)

/-- Source lines 131-134 and 137: the reversal gain per direction.  It is
built from finite cells only (no division), so the source's
`replace([inf, -inf, nan], 0)` on it is the identity and the column is
`List Rat` directly. -/
def colGananciaAlRegresar (precios lotes : List ℚ) (precio_inicial : ℚ)
    (direccion : String) : List ℚ :=
  if direccion = "subida" then
    List.zipWith (fun p a => (p - precio_inicial) * a * LOTES_A_UNIDADES * (-1)) precios (cumsum lotes)
  else
    List.zipWith (fun p a => (precio_inicial - p) * a * LOTES_A_UNIDADES) precios (cumsum lotes)

/-- Embedding of `calcular_acumulados`: each column is the elementwise
pandas expression of the corresponding source line. -/
def calcular_acumulados (precios lotes : List ℚ) (precio_inicial : ℚ)
    (direccion : String) : DF :=
  DF.mk precios lotes (cumsum lotes) (colBreakEven precios lotes)
    (colFlotante precios lotes) (colPuntosDeSalida precios lotes direccion)
    (colAumentoNecesario precios lotes)
    (colGananciaAlRegresar precios lotes precio_inicial direccion)

/-- Embedding of `validar_precio_final`: compares the last entry of the
(already rounded) price column with the expected final price; `True`
means valid, `False` means the error message was shown. -/
def validar_precio_final (precios_redondeados : List ℚ) (precio_esperado : ℚ) : Bool :=
  decide (precios_redondeados.getLastD 0 = precio_esperado)

/-- Round-half-to-even on rationals: the rounding mode of
`pandas.Series.round` / NumPy. -/
def roundHalfEven (x : ℚ) : ℤ :=
  let f := ⌊x⌋
  if x - f < 1/2 then f
  else if x - f > 1/2 then f + 1
  else if f % 2 = 0 then f else f + 1

/-- `Series.round(n)`: round to `n` decimal places, ties to even. -/
def roundTo (n : ℕ) (x : ℚ) : ℚ :=
  (roundHalfEven (x * 10 ^ n) : ℚ) / 10 ^ n

/-- The expected final price computed in `main`:
`precio_inicial + TOTAL_UNIDADES` for subida, minus for bajada. -/
def mainEsperado (precio_inicial : ℚ) (direccion : String) : ℚ :=
  if direccion = "subida" then precio_inicial + TOTAL_UNIDADES
  else precio_inicial - TOTAL_UNIDADES

/-- The observable stages of `main`'s computation, in source order:
ladder generation (line 176), lot assignment (line 179), the
length-mismatch error branch (line 183), the call to
`calcular_acumulados` (line 189), the endpoint-validation failure
(lines 146, 205) and the rendering of the table (line 210). -/
inductive Step where
  | direction_error : Step
  | generate : Step
  | assign : Step
  | length_error : Step
  | metrics : Step
  | validate_fail : Step
  | render : Step
deriving DecidableEq, Repr

/-- The stage trace of one button press of `main`, mirroring the control
flow of lines 174-210 of the source: generate, assign, check lengths,
compute metrics, round, validate the final price, render on success. -/
def mainTrace (precio_inicial : ℚ) (direccion : String) (opcion : ℤ) : List Step :=
  match generar_precios precio_inicial TOTAL_UNIDADES PASO direccion with
  | Except.error _ => [Step.direction_error]
  | Except.ok precios =>
      let lotes := asignar_lotes precio_inicial precios opcion
      if precios.length ≠ lotes.length then [Step.generate, Step.assign, Step.length_error]
      else
        let df := calcular_acumulados precios lotes precio_inicial direccion
        if validar_precio_final (df.precio.map (roundTo 2)) (mainEsperado precio_inicial direccion)
        then [Step.generate, Step.assign, Step.metrics, Step.render]
        else [Step.generate, Step.assign, Step.metrics, Step.validate_fail]

/-- The rounded lot column displayed by `main` (line 193): rounding is
applied to the output of `asignar_lotes`, i.e. after scaling. -/
def mainLotesRedondeados (precio_inicial : ℚ) (direccion : String) (opcion : ℤ) : List ℚ :=
  match generar_precios precio_inicial TOTAL_UNIDADES PASO direccion with
  | Except.error _ => []
  | Except.ok precios => (asignar_lotes precio_inicial precios opcion).map (roundTo 4)

/-- The seven recognized numeric risk-profile options of `main`
(line 171): Neutra 1, Agresiva 2, Conservadora 3, MuyAgresiva 4,
SemiAgresiva 5, SuperAgresiva 6, SemiConservadora 7. -/
def opReconocida (opcion : ℤ) : Prop :=
  opcion = 1 ∨ opcion = 2 ∨ opcion = 3 ∨ opcion = 4 ∨ opcion = 5 ∨ opcion = 6 ∨ opcion = 7

instance (opcion : ℤ) : Decidable (opReconocida opcion) := by
  unfold opReconocida
  infer_instance

/-- The single lot value appended at index `i` when `opcion` is
recognized (so that `loteBase` is the singleton of this value). -/
def loteBase1 (precio_inicial : ℚ) (opcion : ℤ) (i : ℕ) (precio : ℚ) : ℚ :=
  if i = 0 then 1.0
  else if i = 1 then 1.4
  else if i = 2 then 2.4
  else if i = 3 then 2
  else if i = 4 then 2.4 * 1.3
  else if i = 5 then
    (if opcion = 1 then 0
     else if opcion = 2 ∨ opcion = 3 ∨ opcion = 4 ∨ opcion = 5 ∨ opcion = 6 then 2.4 * 1.3
     else if opcion = 7 then 2
     else 0)
  else if i = 6 then 3 * 1.5
  else if i = 7 then
    (if opcion = 1 ∨ opcion = 7 then 0
     else if opcion = 2 then 3
     else if opcion = 3 ∨ opcion = 4 ∨ opcion = 5 ∨ opcion = 6 then 3
     else 0)
  else if i = 8 then 4 * 1.5
  else lote_por_diferencia (|precio_inicial - precio|)

/-- Transcribed from the claim: the index-position lot table, with the
profile overrides at indices 5 and 7 (0 is out of range padding). -/
def specIndexLot (opcion : ℤ) (i : ℕ) : ℚ :=
  if i = 0 then 1.0
  else if i = 1 then 1.4
  else if i = 2 then 2.4
  else if i = 3 then 2.0
  else if i = 4 then 2.4 * 1.3
  else if i = 5 then (if opcion = 1 then 0 else if opcion = 7 then 2.0 else 2.4 * 1.3)
  else if i = 6 then 3 * 1.5
  else if i = 7 then (if opcion = 1 ∨ opcion = 7 then 0 else 3)
  else if i = 8 then 4 * 1.5
  else 0

/-- Transcribed from the claim: the per-profile scaling formula
(Conservative 3, VeryAggressive 4, SemiAggressive 5, SuperAggressive 6;
Neutral 1, Aggressive 2 and SemiConservative 7 use the default). -/
def specEscala (opcion : ℤ) (lote : ℚ) : ℚ :=
  if opcion = 3 then lote / 2.11
  else if opcion = 4 then (lote * 1.25) / 1.6
  else if opcion = 5 then (lote * 1.25) / 2.25
  else if opcion = 6 then (lote * 1.25 * 1.2) / 1.6
  else lote / 1.5932

/-- Transcribed from the claim (C5) word for word: the difference-based
table with closed-interval boundaries, in particular `35 <= d <= 54`
for the 0.625 bucket, everything else falling to the 0.5 default. -/
def specDiffTable (d : ℚ) : ℚ :=
  if 0 ≤ d ∧ d ≤ 15 then 0.5
  else if d = 20 then 0.0
  else if d = 25 ∨ d = 30 then 2.0
  else if 35 ≤ d ∧ d ≤ 54 then 0.625
  else if d = 55 then 0.0
  else if d = 60 then 6.0
  else if 65 ≤ d ∧ d ≤ 90 then 2.0
  else if 91 ≤ d ∧ d ≤ 94 then 1.5
  else if 95 ≤ d ∧ d ≤ 120 then 3.375
  else 0.5

/-- The claim's table amended at its only point of divergence from the
code: the 0.625 bucket is `35 <= d < 55` (so non-integer distances
strictly between 54 and 55 also give 0.625), `d = 55` gives 0. -/
def specDiffTableAmended (d : ℚ) : ℚ :=
  if 0 ≤ d ∧ d ≤ 15 then 0.5
  else if d = 20 then 0.0
  else if d = 25 ∨ d = 30 then 2.0
  else if 35 ≤ d ∧ d < 55 then 0.625
  else if d = 55 then 0.0
  else if d = 60 then 6.0
  else if 65 ≤ d ∧ d ≤ 90 then 2.0
  else if 91 ≤ d ∧ d ≤ 94 then 1.5
  else if 95 ≤ d ∧ d ≤ 120 then 3.375
  else 0.5

/-- Transcribed from the claim (C9): cumulative lot as the running sum
of the lot column. -/
def specCumLot (lotes : List ℚ) (i : ℕ) : ℚ :=
  ∑ k in Finset.range (i + 1), lotes.getD k 0

/-- Transcribed from the claim (C1): the volume-weighted break-even
price over levels 0..i with the 100-units-per-lot multiplier. -/
def specBreakEven (precios lotes : List ℚ) (i : ℕ) : ℚ :=
  (∑ k in Finset.range (i + 1), precios.getD k 0 * lotes.getD k 0 * 100) /
    (specCumLot lotes i * 100)

/-- Modelled from the spec (C9): the claimed legacy/baseline mode,
difference-based sizing for every level scaled uniformly by 1.5932.
No such mode exists in src/calcu.py; this definition follows the
claim's words and is refuted against `asignar_lotes` below. -/
def baselineLots (precio_inicial : ℚ) (precios : List ℚ) : List ℚ :=
  precios.map (fun precio => specDiffTable (|precio_inicial - precio|) / DIVISOR_LOTE)

/-! ### Helper lemmas -/

theorem cumsumFrom_length (acc : ℚ) (xs : List ℚ) :
    (cumsumFrom acc xs).length = xs.length := by
  induction xs generalizing acc with
  | nil => rfl
  | cons x xs ih => simp [cumsumFrom, ih]

theorem cumsum_length (xs : List ℚ) : (cumsum xs).length = xs.length :=
  cumsumFrom_length 0 xs

theorem cumsumFrom_getD (xs : List ℚ) :
    ∀ (acc : ℚ) (i : ℕ), i < xs.length →
      (cumsumFrom acc xs).getD i 0 = acc + ∑ k in Finset.range (i + 1), xs.getD k 0 := by
  induction xs with
  | nil => intro acc i h; simp at h
  | cons x xs ih =>
    intro acc i h
    cases i with
    | zero => simp [cumsumFrom]
    | succ n =>
      have hn : n < xs.length := by simpa using h
      have h1 := ih (acc + x) n hn
      have h2 : ∑ k in Finset.range (n + 2), (x :: xs).getD k 0
          = (∑ k in Finset.range (n + 1), xs.getD k 0) + x := by
        rw [Finset.sum_range_succ']
        simp only [List.getD_cons_succ, List.getD_cons_zero]
      simp only [cumsumFrom, List.getD_cons_succ]
      rw [h1, show n + 1 + 1 = n + 2 from rfl, h2]
      ring

theorem cumsum_getD (xs : List ℚ) (i : ℕ) (h : i < xs.length) :
    (cumsum xs).getD i 0 = ∑ k in Finset.range (i + 1), xs.getD k 0 := by
  simpa using cumsumFrom_getD xs 0 i h

theorem zipWith_getD {α β γ : Type} (f : α → β → γ) (xs : List α) (ys : List β)
    (da : α) (db : β) (dc : γ) :
    ∀ (i : ℕ), i < xs.length → i < ys.length →
      (List.zipWith f xs ys).getD i dc = f (xs.getD i da) (ys.getD i db) := by
  induction xs generalizing ys with
  | nil => intro i h; simp at h
  | cons x xs ih =>
    intro i h1 h2
    cases ys with
    | nil => simp at h2
    | cons y ys =>
      cases i with
      | zero => simp [List.zipWith]
      | succ n =>
        have := ih ys n (by simpa using h1) (by simpa using h2)
        simpa [List.zipWith] using this

theorem zipWith3_length {α β γ δ : Type} (f : α → β → γ → δ) (xs : List α)
    (ys : List β) (zs : List γ) :
    (zipWith3 f xs ys zs).length = min xs.length (min ys.length zs.length) := by
  induction xs generalizing ys zs with
  | nil => simp [zipWith3]
  | cons x xs ih =>
    cases ys with
    | nil => simp [zipWith3]
    | cons y ys =>
      cases zs with
      | nil => simp [zipWith3]
      | cons z zs => simp [zipWith3, ih]; omega

theorem zipWith3_getD {α β γ δ : Type} (f : α → β → γ → δ) (xs : List α)
    (ys : List β) (zs : List γ) (da : α) (db : β) (dc : γ) (dd : δ) :
    ∀ (i : ℕ), i < xs.length → i < ys.length → i < zs.length →
      (zipWith3 f xs ys zs).getD i dd = f (xs.getD i da) (ys.getD i db) (zs.getD i dc) := by
  induction xs generalizing ys zs with
  | nil => intro i h; simp at h
  | cons x xs ih =>
    intro i h1 h2 h3
    cases ys with
    | nil => simp at h2
    | cons y ys =>
      cases zs with
      | nil => simp at h3
      | cons z zs =>
        cases i with
        | zero => simp [zipWith3]
        | succ n =>
          have := ih ys zs n (by simpa using h1) (by simpa using h2) (by simpa using h3)
          simpa [zipWith3] using this

theorem map_getD {α β : Type} (f : α → β) (xs : List α) (da : α) (db : β)
    (i : ℕ) (h : i < xs.length) :
    (xs.map f).getD i db = f (xs.getD i da) := by
  rw [List.getD_eq_getElem _ _ (by simpa using h), List.getD_eq_getElem _ _ h]
  simp

theorem generar_bajada (p0 : ℚ) :
    generar_precios p0 TOTAL_UNIDADES PASO "bajada"
      = Except.ok ((List.range 9).map (fun i : ℕ => p0 - (i : ℚ) * PASO)) := by
  have h : (⌊TOTAL_UNIDADES / PASO⌋).toNat + 1 = 9 := by
    have h8 : ⌊TOTAL_UNIDADES / PASO⌋ = 8 := by norm_num [TOTAL_UNIDADES, PASO]
    rw [h8]; rfl
  simp [generar_precios, h]

theorem generar_subida (p0 : ℚ) :
    generar_precios p0 TOTAL_UNIDADES PASO "subida"
      = Except.ok ((List.range 9).map (fun i : ℕ => p0 + (i : ℚ) * PASO)) := by
  have h : (⌊TOTAL_UNIDADES / PASO⌋).toNat + 1 = 9 := by
    have h8 : ⌊TOTAL_UNIDADES / PASO⌋ = 8 := by norm_num [TOTAL_UNIDADES, PASO]
    rw [h8]; rfl
  simp [generar_precios, h]

theorem loteBase_reconocida (p0 : ℚ) (op : ℤ) (hop : opReconocida op) (i : ℕ) (pr : ℚ) :
    loteBase p0 op i pr = [loteBase1 p0 op i pr] := by
  have h5 : (if op = 1 then ([0] : List ℚ)
        else if op = 2 ∨ op = 3 ∨ op = 4 ∨ op = 5 ∨ op = 6 then [2.4 * 1.3]
        else if op = 7 then [2] else [])
      = [if op = 1 then (0 : ℚ)
        else if op = 2 ∨ op = 3 ∨ op = 4 ∨ op = 5 ∨ op = 6 then 2.4 * 1.3
        else if op = 7 then 2 else 0] := by
    rcases hop with h | h | h | h | h | h | h <;> subst h <;> rfl
  have h7 : (if op = 1 ∨ op = 7 then ([0] : List ℚ)
        else if op = 2 then [3]
        else if op = 3 ∨ op = 4 ∨ op = 5 ∨ op = 6 then [3] else [])
      = [if op = 1 ∨ op = 7 then (0 : ℚ)
        else if op = 2 then 3
        else if op = 3 ∨ op = 4 ∨ op = 5 ∨ op = 6 then 3 else 0] := by
    rcases hop with h | h | h | h | h | h | h <;> subst h <;> rfl
  rcases i with _|_|_|_|_|_|_|_|_|n <;> first | rfl | exact h5 | exact h7

theorem lotesBaseAux_length (p0 : ℚ) (op : ℤ) (hop : opReconocida op) :
    ∀ (j : ℕ) (l : List ℚ), (lotesBaseAux p0 op j l).length = l.length := by
  intro j l
  induction l generalizing j with
  | nil => rfl
  | cons a l ih =>
    simp [lotesBaseAux, loteBase_reconocida p0 op hop, ih]

theorem lotesBaseAux_getD (p0 : ℚ) (op : ℤ) (hop : opReconocida op) :
    ∀ (l : List ℚ) (j i : ℕ), i < l.length →
      (lotesBaseAux p0 op j l).getD i 0 = loteBase1 p0 op (j + i) (l.getD i 0) := by
  intro l
  induction l with
  | nil => intro j i h; simp at h
  | cons a l ih =>
    intro j i h
    simp only [lotesBaseAux, loteBase_reconocida p0 op hop, List.singleton_append]
    cases i with
    | zero => simp
    | succ n =>
      have hn : n < l.length := by simpa using h
      simp only [List.getD_cons_succ]
      rw [ih (j + 1) n hn]
      have hj : j + 1 + n = j + (n + 1) := by omega
      rw [hj]

theorem lotesBase_length (p0 : ℚ) (pr : List ℚ) (op : ℤ) (hop : opReconocida op) :
    (lotesBase p0 pr op).length = pr.length :=
  lotesBaseAux_length p0 op hop 0 pr

theorem lotesBase_getD (p0 : ℚ) (pr : List ℚ) (op : ℤ) (hop : opReconocida op)
    (i : ℕ) (h : i < pr.length) :
    (lotesBase p0 pr op).getD i 0 = loteBase1 p0 op i (pr.getD i 0) := by
  simpa using lotesBaseAux_getD p0 op hop pr 0 i h

theorem range_map_getD {α : Type} (f : ℕ → α) (n i : ℕ) (d : α) (h : i < n) :
    ((List.range n).map f).getD i d = f i := by
  rw [List.getD_eq_getElem _ _ (by simpa using h)]
  simp

theorem range_map_getLastq {α : Type} (f : ℕ → α) (n : ℕ) :
    ((List.range (n + 1)).map f).getLast? = some (f n) := by
  simp [List.range_succ]

/-! ### The claims -/

/-- C6: for every starting price, positive step, positive total span that
is an exact multiple of the step, and each recognized direction, the
ladder has exactly totalSpan/step + 1 levels, level i is
startingPrice minus (bajada) or plus (subida) i*step, and the last
level is exactly startingPrice minus or plus totalSpan. -/
theorem C6_ladder_generation (p0 paso total : ℚ) (k : ℕ)
    (hpaso : 0 < paso) (htotal : 0 < total) (hk : total = (k : ℚ) * paso) :
    ∃ lb ls : List ℚ,
      generar_precios p0 total paso "bajada" = Except.ok lb ∧
      generar_precios p0 total paso "subida" = Except.ok ls ∧
      lb.length = k + 1 ∧ ls.length = k + 1 ∧ (k : ℚ) = total / paso ∧
      (∀ i : ℕ, i < k + 1 → lb.getD i 0 = p0 - i * paso ∧ ls.getD i 0 = p0 + i * paso) ∧
      lb.getLast? = some (p0 - total) ∧ ls.getLast? = some (p0 + total) := by
  have hpne : paso ≠ 0 := ne_of_gt hpaso
  have hdiv : total / paso = (k : ℚ) := by rw [hk]; field_simp
  have hfloor : ⌊total / paso⌋ = (k : ℤ) := by rw [hdiv]; exact Int.floor_natCast k
  have hnp : (⌊total / paso⌋).toNat + 1 = k + 1 := by rw [hfloor]; simp
  refine ⟨(List.range (k + 1)).map (fun i : ℕ => p0 - (i : ℚ) * paso),
          (List.range (k + 1)).map (fun i : ℕ => p0 + (i : ℚ) * paso),
          ?_, ?_, by simp, by simp, hdiv.symm, ?_, ?_, ?_⟩
  · simp [generar_precios, hnp]
  · simp [generar_precios, hnp]
  · intro i hi
    rw [range_map_getD _ _ _ _ hi, range_map_getD _ _ _ _ hi]
    exact ⟨rfl, rfl⟩
  · rw [range_map_getLastq]
    congr 1
    rw [hk]
  · rw [range_map_getLastq]
    congr 1
    rw [hk]

/-- Witness for C6 at the source constants: start 2700, step 15,
span 120 = 8 * 15. -/
theorem C6_witness :
    (0 < (15:ℚ)) ∧ (0 < (120:ℚ)) ∧ ((120:ℚ) = ((8:ℕ) : ℚ) * 15) ∧
    (∃ lb ls : List ℚ,
      generar_precios 2700 120 15 "bajada" = Except.ok lb ∧
      generar_precios 2700 120 15 "subida" = Except.ok ls ∧
      lb.length = 8 + 1 ∧ ls.length = 8 + 1 ∧ ((8:ℕ) : ℚ) = 120 / 15 ∧
      (∀ i : ℕ, i < 8 + 1 → lb.getD i 0 = 2700 - i * 15 ∧ ls.getD i 0 = 2700 + i * 15) ∧
      lb.getLast? = some (2700 - 120) ∧ ls.getLast? = some (2700 + 120)) :=
  ⟨by norm_num, by norm_num, by norm_num,
    C6_ladder_generation 2700 15 120 8 (by norm_num) (by norm_num) (by norm_num)⟩

theorem loteBase1_eq_specIndexLot (p0 : ℚ) (op : ℤ) (i : ℕ) (pr : ℚ)
    (hop : opReconocida op) (hi8 : i ≤ 8) :
    loteBase1 p0 op i pr = specIndexLot op i := by
  interval_cases i <;>
    first
      | rfl
      | (norm_num [loteBase1, specIndexLot]; done)
      | (rcases hop with h | h | h | h | h | h | h <;> subst h <;>
          first | rfl | norm_num [loteBase1, specIndexLot])

theorem lotesBase_indice (p0 : ℚ) (precios : List ℚ) (op : ℤ) (i : ℕ)
    (hop : opReconocida op) (hi : i < precios.length) (hi8 : i ≤ 8) :
    (lotesBase p0 precios op).getD i 0 = specIndexLot op i :=
  (lotesBase_getD p0 precios op hop i hi).trans
    (loteBase1_eq_specIndexLot p0 op i _ hop hi8)

theorem asignar_lotes_eq_map (p0 : ℚ) (pr : List ℚ) (op : ℤ) (hop : opReconocida op) :
    asignar_lotes p0 pr op = (lotesBase p0 pr op).map (fun lote => specEscala op lote) := by
  rcases hop with h | h | h | h | h | h | h <;> subst h <;> rfl

/-- C3: for every recognized profile the pre-scaling lot at indices 0..8
is the fixed index-position table, with the profile overrides at
indices 5 (0 for Neutral, 2.0 for SemiConservative, 2.4*1.3 otherwise)
and 7 (0 for Neutral and SemiConservative, 3 otherwise); for Neutral
the lots at indices 5 and 7 are exactly 0 before scaling and remain 0
after the division by 1.5932. -/
theorem C3_index_position_lots (p0 : ℚ) (precios : List ℚ) (op : ℤ) (i : ℕ)
    (hop : opReconocida op) (hi : i < precios.length) (hi8 : i ≤ 8) :
    (lotesBase p0 precios op).getD i 0 = specIndexLot op i
    ∧ (op = 1 → i = 5 ∨ i = 7 →
        (lotesBase p0 precios op).getD i 0 = 0
        ∧ (asignar_lotes p0 precios op).getD i 0 = 0) := by
  have hbase := lotesBase_getD p0 precios op hop i hi
  refine ⟨lotesBase_indice p0 precios op i hop hi hi8, ?_⟩
  rintro rfl hi57
  have hzero : (lotesBase p0 precios 1).getD i 0 = 0 := by
    rw [hbase]
    rcases hi57 with rfl | rfl <;> rfl
  refine ⟨hzero, ?_⟩
  have hlen : i < (lotesBase p0 precios 1).length := by
    rw [lotesBase_length p0 precios 1 hop]; exact hi
  have hasg : asignar_lotes p0 precios 1
      = (lotesBase p0 precios 1).map (fun lote => lote / DIVISOR_LOTE) := rfl
  rw [hasg, map_getD _ _ 0 _ _ hlen, hzero, zero_div]

/-- Witness for C3 at profile Conservative (3), index 5, on the source
ladder from 2700 falling. -/
theorem C3_witness :
    opReconocida 3
    ∧ 5 < ([2700, 2685, 2670, 2655, 2640, 2625, 2610, 2595, 2580] : List ℚ).length
    ∧ 5 ≤ 8
    ∧ ((lotesBase 2700 [2700, 2685, 2670, 2655, 2640, 2625, 2610, 2595, 2580] 3).getD 5 0
        = specIndexLot 3 5
      ∧ ((3:ℤ) = 1 → (5:ℕ) = 5 ∨ (5:ℕ) = 7 →
        (lotesBase 2700 [2700, 2685, 2670, 2655, 2640, 2625, 2610, 2595, 2580] 3).getD 5 0 = 0
        ∧ (asignar_lotes 2700 [2700, 2685, 2670, 2655, 2640, 2625, 2610, 2595, 2580] 3).getD 5 0
            = 0)) :=
  ⟨by decide, by decide, by decide,
    C3_index_position_lots 2700 _ 3 5 (by decide) (by decide) (by decide)⟩

theorem lote_por_diferencia_eq_amended (d : ℚ) :
    lote_por_diferencia d = specDiffTableAmended d := by
  unfold lote_por_diferencia specDiffTableAmended
  by_cases h1 : 0 ≤ d ∧ d ≤ 15
  · simp [h1]
  · by_cases h2 : d = 20
    · simp [h1, h2]
    · by_cases h3 : d = 25 ∨ d = 30
      · simp [h1, h2, h3]
      · by_cases h4 : 35 ≤ d ∧ d ≤ 55
        · by_cases h5 : d = 55
          · subst h5; norm_num
          · have h4a : 35 ≤ d ∧ d < 55 := ⟨h4.1, lt_of_le_of_ne h4.2 h5⟩
            simp [h1, h2, h3, h4, h4a, h5]
        · have h5 : d ≠ 55 := by
            intro h; exact h4 (by rw [h]; norm_num)
          have h4a : ¬(35 ≤ d ∧ d < 55) := fun hc => h4 ⟨hc.1, le_of_lt hc.2⟩
          simp [h1, h2, h3, h4, h4a, h5]

theorem lotesBase_diferencia_amended (p0 : ℚ) (precios : List ℚ) (op : ℤ) (i : ℕ)
    (hop : opReconocida op) (h9 : 9 ≤ i) (hi : i < precios.length) :
    (lotesBase p0 precios op).getD i 0
      = specDiffTableAmended (|p0 - precios.getD i 0|) := by
  rw [lotesBase_getD p0 precios op hop i hi]
  obtain ⟨n, rfl⟩ : ∃ n : ℕ, i = n + 9 := ⟨i - 9, by omega⟩
  have h : loteBase1 p0 op (n + 9) (precios.getD (n + 9) 0)
      = lote_por_diferencia (|p0 - precios.getD (n + 9) 0|) := rfl
  rw [h, lote_por_diferencia_eq_amended]

/-- C5 amended: for every level index i of at least 9, the pre-scaling
lot is determined solely by the distance d via the claim's table with
the 0.625 bucket corrected to the half-open interval 35 <= d < 55
(the claim's closed 35..54 bucket disagrees with the code on
non-integer distances strictly between 54 and 55). -/
theorem C5_distance_table (p0 : ℚ) (precios : List ℚ) (op : ℤ) (i : ℕ)
    (hop : opReconocida op) (h9 : 9 ≤ i) (hi : i < precios.length) :
    (lotesBase p0 precios op).getD i 0
      = specDiffTableAmended (|p0 - precios.getD i 0|) :=
  lotesBase_diferencia_amended p0 precios op i hop h9 hi

/-- Witness for C5 amended: index 9 on a ten-level list at distance
135 (beyond the table, so the 0.5 fallback scaled value). -/
theorem C5_witness :
    opReconocida 1 ∧ 9 ≤ 9
    ∧ 9 < ([2700, 2685, 2670, 2655, 2640, 2625, 2610, 2595, 2580, 2565] : List ℚ).length
    ∧ (lotesBase 2700 [2700, 2685, 2670, 2655, 2640, 2625, 2610, 2595, 2580, 2565] 1).getD 9 0
        = specDiffTableAmended
            (|(2700:ℚ) - ([2700, 2685, 2670, 2655, 2640, 2625, 2610, 2595, 2580, 2565] : List ℚ).getD 9 0|) :=
  ⟨by decide, by decide, by decide,
    C5_distance_table 2700 _ 1 9 (by decide) (by decide) (by decide)⟩

/-- Counterexample to C5 as stated: at distance 54.5 (price 45.5 from
start 100) the code assigns 0.625 while the claim's closed-interval
table (0.625 only for 35 <= d <= 54, otherwise the 0.5 fallback)
says 0.5. -/
theorem C5_counterexample :
    (lotesBase 100 [100, 85, 70, 55, 40, 25, 10, -5, -20, 45.5] 1).getD 9 0 = 0.625
    ∧ specDiffTable (|(100 : ℚ) - 45.5|) = 0.5
    ∧ (lotesBase 100 [100, 85, 70, 55, 40, 25, 10, -5, -20, 45.5] 1).getD 9 0
        ≠ specDiffTable (|(100 : ℚ) - 45.5|) := by
  have habs : |(100 : ℚ) - 45.5| = 54.5 := by
    rw [show (100 : ℚ) - 45.5 = 54.5 by norm_num, abs_of_pos (by norm_num)]
  have h1 : (lotesBase 100 [100, 85, 70, 55, 40, 25, 10, -5, -20, 45.5] 1).getD 9 0 = 0.625 := by
    rw [lotesBase_getD 100 _ 1 (by norm_num [opReconocida]) 9 (by norm_num)]
    have hget : ([100, 85, 70, 55, 40, 25, 10, -5, -20, 45.5] : List ℚ).getD 9 0 = 45.5 := rfl
    rw [hget]
    have h : loteBase1 100 1 9 (45.5 : ℚ) = lote_por_diferencia (|(100:ℚ) - 45.5|) := rfl
    rw [h, habs]
    norm_num [lote_por_diferencia]
  have h2 : specDiffTable (|(100 : ℚ) - 45.5|) = 0.5 := by
    rw [habs]
    norm_num [specDiffTable]
  exact ⟨h1, h2, by rw [h1, h2]; norm_num⟩

/-- C1: on equal-length price and lot columns whose cumulative lot is
positive at every level, the metrics engine returns exactly the claimed
formulas: break-even as the 100-weighted running average, floating PnL,
exit distance (signed for subida, absolute for bajada), the gain-5000
distance, and the reversal gain per direction. -/
theorem C1_metrics_engine (precios lotes : List ℚ) (precio_inicial : ℚ) (i : ℕ)
    (hlen : lotes.length = precios.length)
    (hpos : ∀ j, j < precios.length → 0 < (cumsum lotes).getD j 0)
    (hi : i < precios.length) :
    (∀ direccion : String,
      (calcular_acumulados precios lotes precio_inicial direccion).lotesAcumulados.getD i 0
          = specCumLot lotes i
      ∧ (calcular_acumulados precios lotes precio_inicial direccion).breakEven.getD i none
          = some (specBreakEven precios lotes i)
      ∧ (calcular_acumulados precios lotes precio_inicial direccion).flotante.getD i none
          = some ((precios.getD i 0 - specBreakEven precios lotes i) * specCumLot lotes i * 100)
      ∧ (calcular_acumulados precios lotes precio_inicial direccion).aumentoNecesario.getD i 0
          = (specBreakEven precios lotes i + 5000 / (specCumLot lotes i * 100)) - precios.getD i 0)
    ∧ (calcular_acumulados precios lotes precio_inicial "subida").puntosDeSalida.getD i none
        = some (specBreakEven precios lotes i - precios.getD i 0)
    ∧ (calcular_acumulados precios lotes precio_inicial "bajada").puntosDeSalida.getD i none
        = some (|precios.getD i 0 - specBreakEven precios lotes i|)
    ∧ (calcular_acumulados precios lotes precio_inicial "subida").gananciaAlRegresar.getD i 0
        = (precios.getD i 0 - precio_inicial) * specCumLot lotes i * 100 * (-1)
    ∧ (calcular_acumulados precios lotes precio_inicial "bajada").gananciaAlRegresar.getD i 0
        = (precio_inicial - precios.getD i 0) * specCumLot lotes i * 100 := by
  have hiL : i < lotes.length := by rw [hlen]; exact hi
  have hiA : i < (cumsum lotes).length := by rw [cumsum_length]; exact hiL
  have hprodlen : (List.zipWith (fun p l => p * l * LOTES_A_UNIDADES) precios lotes).length
      = precios.length := by rw [List.length_zipWith, hlen, min_self]
  have hiP : i < (List.zipWith (fun p l => p * l * LOTES_A_UNIDADES) precios lotes).length := by
    rw [hprodlen]; exact hi
  have hiN : i < (cumsum (List.zipWith (fun p l => p * l * LOTES_A_UNIDADES) precios lotes)).length := by
    rw [cumsum_length]; exact hiP
  have hA : (cumsum lotes).getD i 0 = specCumLot lotes i := by
    rw [cumsum_getD _ _ hiL]; rfl
  have hApos : 0 < specCumLot lotes i := by rw [← hA]; exact hpos i hi
  have hden : ¬(specCumLot lotes i * LOTES_A_UNIDADES = 0) := by
    have h100 : (0:ℚ) < LOTES_A_UNIDADES := by norm_num [LOTES_A_UNIDADES]
    exact ne_of_gt (mul_pos hApos h100)
  have hN : (cumsum (List.zipWith (fun p l => p * l * LOTES_A_UNIDADES) precios lotes)).getD i 0
      = ∑ k in Finset.range (i + 1), precios.getD k 0 * lotes.getD k 0 * 100 := by
    rw [cumsum_getD _ _ hiP]
    refine Finset.sum_congr rfl ?_
    intro k hk
    have hk1 : k < precios.length := by
      have := Finset.mem_range.mp hk; omega
    have hk2 : k < lotes.length := by rw [hlen]; exact hk1
    rw [zipWith_getD _ precios lotes 0 0 0 k hk1 hk2]
    rfl
  have hBElen : (colBreakEven precios lotes).length = precios.length := by
    simp only [colBreakEven]
    rw [List.length_zipWith, cumsum_length, cumsum_length, hprodlen, hlen, min_self]
  have hiBE : i < (colBreakEven precios lotes).length := by rw [hBElen]; exact hi
  have hbe : (colBreakEven precios lotes).getD i none = some (specBreakEven precios lotes i) := by
    simp only [colBreakEven]
    rw [zipWith_getD _ _ _ 0 0 none i hiN hiA, hN, hA]
    simp only [evDiv]
    rw [if_neg hden]
    rfl
  have hflot : (colFlotante precios lotes).getD i none
      = some ((precios.getD i 0 - specBreakEven precios lotes i) * specCumLot lotes i * 100) := by
    simp only [colFlotante]
    rw [zipWith3_getD _ _ _ _ 0 none 0 none i hi hiBE hiA, hbe, hA]
    rfl
  have haum : (colAumentoNecesario precios lotes).getD i 0
      = (specBreakEven precios lotes i + 5000 / (specCumLot lotes i * 100)) - precios.getD i 0 := by
    simp only [colAumentoNecesario]
    have hzlen : i < (zipWith3 (fun be a p =>
        evSub (evAdd be (evDiv (some 5000) (some (a * LOTES_A_UNIDADES)))) (some p))
        (colBreakEven precios lotes) (cumsum lotes) precios).length := by
      rw [zipWith3_length, hBElen, cumsum_length, hlen, min_self, min_self]
      exact hi
    rw [map_getD _ _ none 0 i hzlen]
    rw [zipWith3_getD _ _ _ _ none 0 0 none i hiBE hiA hi, hbe, hA]
    simp only [evDiv]
    rw [if_neg hden]
    rfl
  have hpsub : (colPuntosDeSalida precios lotes "subida").getD i none
      = some (specBreakEven precios lotes i - precios.getD i 0) := by
    simp only [colPuntosDeSalida, reduceIte]
    rw [zipWith_getD _ _ _ none 0 none i hiBE hi, hbe]
    rfl
  have hpbaj : (colPuntosDeSalida precios lotes "bajada").getD i none
      = some (|precios.getD i 0 - specBreakEven precios lotes i|) := by
    simp only [colPuntosDeSalida, String.reduceEq, reduceIte]
    rw [zipWith_getD _ _ _ 0 none none i hi hiBE, hbe]
    rfl
  have hgsub : (colGananciaAlRegresar precios lotes precio_inicial "subida").getD i 0
      = (precios.getD i 0 - precio_inicial) * specCumLot lotes i * 100 * (-1) := by
    simp only [colGananciaAlRegresar, reduceIte]
    rw [zipWith_getD _ _ _ 0 0 0 i hi hiA, hA]
    rfl
  have hgbaj : (colGananciaAlRegresar precios lotes precio_inicial "bajada").getD i 0
      = (precio_inicial - precios.getD i 0) * specCumLot lotes i * 100 := by
    simp only [colGananciaAlRegresar, String.reduceEq, reduceIte]
    rw [zipWith_getD _ _ _ 0 0 0 i hi hiA, hA]
    rfl
  exact ⟨fun direccion => ⟨hA, hbe, hflot, haum⟩, hpsub, hpbaj, hgsub, hgbaj⟩

/-- Witness for C1 on prices [10, 20] with unit lots, start 10, level 1. -/
theorem C1_witness :
    (([1, 1] : List ℚ).length = ([10, 20] : List ℚ).length)
    ∧ (∀ j, j < ([10, 20] : List ℚ).length → 0 < (cumsum [1, 1]).getD j 0)
    ∧ 1 < ([10, 20] : List ℚ).length
    ∧ ((∀ direccion : String,
      (calcular_acumulados [10, 20] [1, 1] 10 direccion).lotesAcumulados.getD 1 0
          = specCumLot [1, 1] 1
      ∧ (calcular_acumulados [10, 20] [1, 1] 10 direccion).breakEven.getD 1 none
          = some (specBreakEven [10, 20] [1, 1] 1)
      ∧ (calcular_acumulados [10, 20] [1, 1] 10 direccion).flotante.getD 1 none
          = some ((([10, 20] : List ℚ).getD 1 0 - specBreakEven [10, 20] [1, 1] 1) * specCumLot [1, 1] 1 * 100)
      ∧ (calcular_acumulados [10, 20] [1, 1] 10 direccion).aumentoNecesario.getD 1 0
          = (specBreakEven [10, 20] [1, 1] 1 + 5000 / (specCumLot [1, 1] 1 * 100)) - ([10, 20] : List ℚ).getD 1 0)
    ∧ (calcular_acumulados [10, 20] [1, 1] 10 "subida").puntosDeSalida.getD 1 none
        = some (specBreakEven [10, 20] [1, 1] 1 - ([10, 20] : List ℚ).getD 1 0)
    ∧ (calcular_acumulados [10, 20] [1, 1] 10 "bajada").puntosDeSalida.getD 1 none
        = some (|([10, 20] : List ℚ).getD 1 0 - specBreakEven [10, 20] [1, 1] 1|)
    ∧ (calcular_acumulados [10, 20] [1, 1] 10 "subida").gananciaAlRegresar.getD 1 0
        = (([10, 20] : List ℚ).getD 1 0 - 10) * specCumLot [1, 1] 1 * 100 * (-1)
    ∧ (calcular_acumulados [10, 20] [1, 1] 10 "bajada").gananciaAlRegresar.getD 1 0
        = (10 - ([10, 20] : List ℚ).getD 1 0) * specCumLot [1, 1] 1 * 100) :=
  ⟨rfl,
    by
      intro j hj
      have hj2 : j < 2 := by simpa using hj
      interval_cases j <;> norm_num [cumsum, cumsumFrom],
    by norm_num,
    C1_metrics_engine [10, 20] [1, 1] 10 1 rfl
      (by
        intro j hj
        have hj2 : j < 2 := by simpa using hj
        interval_cases j <;> norm_num [cumsum, cumsumFrom])
      (by norm_num)⟩

/-- C2 amended: at a level with zero cumulative lot the replaced columns
gainFor5000 and reversalGain are 0, but breakEven, floatingPnL and
exitDistance are non-finite (NaN), not 0: the source replaces
non-finite values only in the two columns of lines 136-137. -/
theorem C2_zero_cumulative_lot (precios lotes : List ℚ) (precio_inicial : ℚ)
    (direccion : String) (i : ℕ)
    (hlen : lotes.length = precios.length) (hi : i < precios.length)
    (hz : (cumsum lotes).getD i 0 = 0) :
    (calcular_acumulados precios lotes precio_inicial direccion).breakEven.getD i none = none
    ∧ (calcular_acumulados precios lotes precio_inicial direccion).flotante.getD i none = none
    ∧ (calcular_acumulados precios lotes precio_inicial direccion).puntosDeSalida.getD i none = none
    ∧ (calcular_acumulados precios lotes precio_inicial direccion).aumentoNecesario.getD i 0 = 0
    ∧ (calcular_acumulados precios lotes precio_inicial direccion).gananciaAlRegresar.getD i 0 = 0 := by
  have hiL : i < lotes.length := by rw [hlen]; exact hi
  have hiA : i < (cumsum lotes).length := by rw [cumsum_length]; exact hiL
  have hprodlen : (List.zipWith (fun p l => p * l * LOTES_A_UNIDADES) precios lotes).length
      = precios.length := by rw [List.length_zipWith, hlen, min_self]
  have hiN : i < (cumsum (List.zipWith (fun p l => p * l * LOTES_A_UNIDADES) precios lotes)).length := by
    rw [cumsum_length, hprodlen]; exact hi
  have hBElen : (colBreakEven precios lotes).length = precios.length := by
    simp only [colBreakEven]
    rw [List.length_zipWith, cumsum_length, cumsum_length, hprodlen, hlen, min_self]
  have hiBE : i < (colBreakEven precios lotes).length := by rw [hBElen]; exact hi
  have hbe0 : (colBreakEven precios lotes).getD i none = none := by
    simp only [colBreakEven]
    rw [zipWith_getD _ _ _ 0 0 none i hiN hiA, hz]
    simp only [evDiv]
    rw [if_pos (by rw [zero_mul])]
  have hflot0 : (colFlotante precios lotes).getD i none = none := by
    simp only [colFlotante]
    rw [zipWith3_getD _ _ _ _ 0 none 0 none i hi hiBE hiA, hbe0]
    rfl
  have hpun0 : (colPuntosDeSalida precios lotes direccion).getD i none = none := by
    simp only [colPuntosDeSalida]
    by_cases hdir : direccion = "subida"
    · rw [if_pos hdir, zipWith_getD _ _ _ none 0 none i hiBE hi, hbe0]
      rfl
    · rw [if_neg hdir, zipWith_getD _ _ _ 0 none none i hi hiBE, hbe0]
      rfl
  have haum0 : (colAumentoNecesario precios lotes).getD i 0 = 0 := by
    simp only [colAumentoNecesario]
    have hzlen : i < (zipWith3 (fun be a p =>
        evSub (evAdd be (evDiv (some 5000) (some (a * LOTES_A_UNIDADES)))) (some p))
        (colBreakEven precios lotes) (cumsum lotes) precios).length := by
      rw [zipWith3_length, hBElen, cumsum_length, hlen, min_self, min_self]
      exact hi
    rw [map_getD _ _ none 0 i hzlen]
    rw [zipWith3_getD _ _ _ _ none 0 0 none i hiBE hiA hi, hbe0]
    rfl
  have hgan0 : (colGananciaAlRegresar precios lotes precio_inicial direccion).getD i 0 = 0 := by
    simp only [colGananciaAlRegresar]
    by_cases hdir : direccion = "subida"
    · rw [if_pos hdir, zipWith_getD _ _ _ 0 0 0 i hi hiA, hz]
      ring
    · rw [if_neg hdir, zipWith_getD _ _ _ 0 0 0 i hi hiA, hz]
      ring
  exact ⟨hbe0, hflot0, hpun0, haum0, hgan0⟩

/-- Witness for C2 amended on a single level with lot 0. -/
theorem C2_witness :
    (([0] : List ℚ).length = ([100] : List ℚ).length)
    ∧ 0 < ([100] : List ℚ).length
    ∧ (cumsum [0]).getD 0 0 = 0
    ∧ ((calcular_acumulados [100] [0] 100 "bajada").breakEven.getD 0 none = none
      ∧ (calcular_acumulados [100] [0] 100 "bajada").flotante.getD 0 none = none
      ∧ (calcular_acumulados [100] [0] 100 "bajada").puntosDeSalida.getD 0 none = none
      ∧ (calcular_acumulados [100] [0] 100 "bajada").aumentoNecesario.getD 0 0 = 0
      ∧ (calcular_acumulados [100] [0] 100 "bajada").gananciaAlRegresar.getD 0 0 = 0) :=
  ⟨rfl, by norm_num, by norm_num [cumsum, cumsumFrom],
    C2_zero_cumulative_lot [100] [0] 100 "bajada" 0 rfl (by norm_num)
      (by norm_num [cumsum, cumsumFrom])⟩

/-- Counterexample to C2 as stated: with a single level of lot 0 the
cumulative lot is 0 and the break-even, floating and exit-distance
columns hold a non-finite value (NaN), not 0: the claim that every
output column is 0 with no undefined value fails. -/
theorem C2_counterexample :
    cumsum [(0 : ℚ)] = [0]
    ∧ (calcular_acumulados [100] [0] 100 "bajada").breakEven = [none]
    ∧ (calcular_acumulados [100] [0] 100 "bajada").flotante = [none]
    ∧ (calcular_acumulados [100] [0] 100 "bajada").puntosDeSalida = [none]
    ∧ (calcular_acumulados [100] [0] 100 "bajada").aumentoNecesario = [0]
    ∧ (calcular_acumulados [100] [0] 100 "bajada").gananciaAlRegresar = [0]
    ∧ (calcular_acumulados [100] [0] 100 "bajada").breakEven.getD 0 none ≠ some 0 := by
  have h1 : (calcular_acumulados [100] [0] 100 "bajada").breakEven = [none] := by
    norm_num [calcular_acumulados, colBreakEven, cumsum, cumsumFrom, evDiv, LOTES_A_UNIDADES]
  refine ⟨by norm_num [cumsum, cumsumFrom], h1, ?_, ?_, ?_, ?_, by rw [h1]; simp⟩ <;>
    norm_num [calcular_acumulados, colBreakEven, colFlotante, colPuntosDeSalida,
      colAumentoNecesario, colGananciaAlRegresar, cumsum, cumsumFrom, zipWith3,
      evDiv, evSub, evMul, evAdd, evAbs, LOTES_A_UNIDADES]

/-- C4: after base-lot assignment every lot value (index-position and
difference-based alike) is scaled by exactly the profile formula of the
claim (Conservative /2.11, VeryAggressive *1.25/1.6, SemiAggressive
*1.25/2.25, SuperAggressive *1.25*1.2/1.6, default /1.5932), and in the
main pipeline the display rounding is applied to the already-scaled
lots (scaling before rounding). -/
theorem C4_profile_scaling (p0 : ℚ) (op : ℤ) (dir : String) (precios : List ℚ)
    (hop : opReconocida op)
    (hgen : generar_precios p0 TOTAL_UNIDADES PASO dir = Except.ok precios) :
    (∀ pr : List ℚ, asignar_lotes p0 pr op
        = (lotesBase p0 pr op).map (fun lote => specEscala op lote))
    ∧ mainLotesRedondeados p0 dir op
        = ((lotesBase p0 precios op).map (fun lote => specEscala op lote)).map (roundTo 4) := by
  refine ⟨fun pr => asignar_lotes_eq_map p0 pr op hop, ?_⟩
  simp only [mainLotesRedondeados, hgen]
  rw [asignar_lotes_eq_map p0 precios op hop]

/-- Witness for C4 at profile VeryAggressive (4) on the falling ladder
from 2700. -/
theorem C4_witness :
    opReconocida 4
    ∧ generar_precios 2700 TOTAL_UNIDADES PASO "bajada"
        = Except.ok ((List.range 9).map (fun i : ℕ => (2700 : ℚ) - (i : ℚ) * PASO))
    ∧ ((∀ pr : List ℚ, asignar_lotes 2700 pr 4
        = (lotesBase 2700 pr 4).map (fun lote => specEscala 4 lote))
      ∧ mainLotesRedondeados 2700 "bajada" 4
          = ((lotesBase 2700 ((List.range 9).map (fun i : ℕ => (2700 : ℚ) - (i : ℚ) * PASO)) 4).map
              (fun lote => specEscala 4 lote)).map (roundTo 4)) :=
  ⟨by decide, generar_bajada 2700,
    C4_profile_scaling 2700 4 "bajada" _ (by decide) (generar_bajada 2700)⟩

theorem asignar_lotes_length (p0 : ℚ) (pr : List ℚ) (op : ℤ) (hop : opReconocida op) :
    (asignar_lotes p0 pr op).length = pr.length := by
  rw [asignar_lotes_eq_map p0 pr op hop, List.length_map, lotesBase_length p0 pr op hop]

/-- C7 amended: whenever the rounded final price differs from the
expected endpoint, main does detect the mismatch and renders no table,
but only after the metrics have already been computed: the trace ends
generate, assign, metrics, validation-failure. -/
theorem C7_endpoint_validation (p0 : ℚ) (dir : String) (op : ℤ) (precios : List ℚ)
    (hop : opReconocida op)
    (hgen : generar_precios p0 TOTAL_UNIDADES PASO dir = Except.ok precios)
    (hne : (precios.map (roundTo 2)).getLastD 0 ≠ mainEsperado p0 dir) :
    mainTrace p0 dir op = [Step.generate, Step.assign, Step.metrics, Step.validate_fail]
    ∧ Step.render ∉ mainTrace p0 dir op
    ∧ Step.metrics ∈ mainTrace p0 dir op := by
  have hlen : precios.length = (asignar_lotes p0 precios op).length :=
    (asignar_lotes_length p0 precios op hop).symm
  have htr : mainTrace p0 dir op
      = [Step.generate, Step.assign, Step.metrics, Step.validate_fail] := by
    simp only [mainTrace, hgen]
    rw [if_neg (not_not_intro hlen)]
    rw [if_neg (by
      simp only [validar_precio_final, calcular_acumulados, decide_eq_true_eq]
      exact hne)]
  exact ⟨htr, by rw [htr]; decide, by rw [htr]; decide⟩

/-- Witness for C7 amended: starting price 100.007 is not representable
at two decimals, so the rounded final price -19.99 differs from the
expected -19.993 and the validation fails after metrics. -/
theorem C7_witness :
    opReconocida 1
    ∧ generar_precios (100007/1000) TOTAL_UNIDADES PASO "bajada"
        = Except.ok ((List.range 9).map (fun i : ℕ => (100007/1000 : ℚ) - (i : ℚ) * PASO))
    ∧ (((List.range 9).map (fun i : ℕ => (100007/1000 : ℚ) - (i : ℚ) * PASO)).map
          (roundTo 2)).getLastD 0 ≠ mainEsperado (100007/1000) "bajada"
    ∧ (mainTrace (100007/1000) "bajada" 1
          = [Step.generate, Step.assign, Step.metrics, Step.validate_fail]
      ∧ Step.render ∉ mainTrace (100007/1000) "bajada" 1
      ∧ Step.metrics ∈ mainTrace (100007/1000) "bajada" 1) := by
  have hlast : (((List.range 9).map (fun i : ℕ => (100007/1000 : ℚ) - (i : ℚ) * PASO)).map
      (roundTo 2)).getLastD 0 = -1999/100 := by
    rw [List.map_map, List.getLastD_eq_getLast?, range_map_getLastq]
    simp only [Option.getD_some, Function.comp_apply]
    have hval : (100007/1000 : ℚ) - ((8:ℕ) : ℚ) * PASO = -19993/1000 := by
      norm_num [PASO]
    rw [hval]
    have harg : (-19993/1000 : ℚ) * 10 ^ 2 = -19993/10 := by norm_num
    rw [roundTo, harg]
    have hf : ⌊(-19993/10 : ℚ)⌋ = -2000 := by norm_num
    rw [roundHalfEven, hf]
    norm_num
  have hne : (((List.range 9).map (fun i : ℕ => (100007/1000 : ℚ) - (i : ℚ) * PASO)).map
      (roundTo 2)).getLastD 0 ≠ mainEsperado (100007/1000) "bajada" := by
    rw [hlast]
    simp only [mainEsperado, String.reduceEq, reduceIte]
    norm_num [TOTAL_UNIDADES]
  exact ⟨by decide, generar_bajada _, hne,
    C7_endpoint_validation (100007/1000) "bajada" 1 _ (by decide) (generar_bajada _) hne⟩

/-- Counterexample to C7 as stated: at starting price 100.007 the
endpoint mismatch occurs, yet the trace shows the metrics computation
(line 189) running before the validation failure (line 205), so the
mismatch is not detected before metrics computation. -/
theorem C7_counterexample :
    generar_precios (100007/1000) TOTAL_UNIDADES PASO "bajada"
      = Except.ok ((List.range 9).map (fun i : ℕ => (100007/1000 : ℚ) - (i : ℚ) * PASO))
    ∧ (((List.range 9).map (fun i : ℕ => (100007/1000 : ℚ) - (i : ℚ) * PASO)).map
        (roundTo 2)).getLastD 0 ≠ mainEsperado (100007/1000) "bajada"
    ∧ mainTrace (100007/1000) "bajada" 1
        = [Step.generate, Step.assign, Step.metrics, Step.validate_fail]
    ∧ Step.metrics ∈ mainTrace (100007/1000) "bajada" 1
    ∧ (mainTrace (100007/1000) "bajada" 1).indexOf Step.metrics
        < (mainTrace (100007/1000) "bajada" 1).indexOf Step.validate_fail := by
  have hlast : (((List.range 9).map (fun i : ℕ => (100007/1000 : ℚ) - (i : ℚ) * PASO)).map
      (roundTo 2)).getLastD 0 = -1999/100 := by
    rw [List.map_map, List.getLastD_eq_getLast?, range_map_getLastq]
    simp only [Option.getD_some, Function.comp_apply]
    have hval : (100007/1000 : ℚ) - ((8:ℕ) : ℚ) * PASO = -19993/1000 := by
      norm_num [PASO]
    rw [hval]
    have harg : (-19993/1000 : ℚ) * 10 ^ 2 = -19993/10 := by norm_num
    rw [roundTo, harg]
    have hf : ⌊(-19993/10 : ℚ)⌋ = -2000 := by norm_num
    rw [roundHalfEven, hf]
    norm_num
  have hne : (((List.range 9).map (fun i : ℕ => (100007/1000 : ℚ) - (i : ℚ) * PASO)).map
      (roundTo 2)).getLastD 0 ≠ mainEsperado (100007/1000) "bajada" := by
    rw [hlast]
    simp only [mainEsperado, String.reduceEq, reduceIte]
    norm_num [TOTAL_UNIDADES]
  have hlen : ((List.range 9).map (fun i : ℕ => (100007/1000 : ℚ) - (i : ℚ) * PASO)).length
      = (asignar_lotes (100007/1000) ((List.range 9).map
          (fun i : ℕ => (100007/1000 : ℚ) - (i : ℚ) * PASO)) 1).length :=
    (asignar_lotes_length _ _ 1 (by decide)).symm
  have htr : mainTrace (100007/1000) "bajada" 1
      = [Step.generate, Step.assign, Step.metrics, Step.validate_fail] := by
    simp only [mainTrace, generar_bajada (100007/1000 : ℚ)]
    rw [if_neg (not_not_intro hlen)]
    rw [if_neg (by
      simp only [validar_precio_final, calcular_acumulados, decide_eq_true_eq]
      exact hne)]
  exact ⟨generar_bajada _, hne, htr, by rw [htr]; decide, by rw [htr]; decide⟩

theorem lotesBase_no_reconocida (p0 : ℚ) (op : ℤ) (hop : ¬ opReconocida op) (f : ℕ → ℚ) :
    lotesBase p0 ((List.range 9).map f) op
      = [1.0, 1.4, 2.4, 2, 2.4 * 1.3, 3 * 1.5, 4 * 1.5] := by
  simp only [opReconocida, not_or] at hop
  obtain ⟨h1, h2, h3, h4, h5, h6, h7⟩ := hop
  have hr : List.range 9 = [0, 1, 2, 3, 4, 5, 6, 7, 8] := rfl
  rw [hr]
  simp only [List.map_cons, List.map_nil, lotesBase, lotesBaseAux, loteBase]
  norm_num [h1, h2, h3, h4, h5, h6, h7]

/-- C8 amended: an unrecognized risk-profile value is not rejected by
`asignar_lotes` itself (no InvalidEnum failure is raised); the loop
silently appends nothing at indices 5 and 7 and returns a 7-element lot
list against 9 prices, and it is main's length check that rejects the
input as a LengthMismatch before any metrics are computed.  A price/lot
length mismatch is indeed rejected before metrics. -/
theorem C8_unrecognized_profile (p0 : ℚ) (dir : String) (op : ℤ) (precios : List ℚ)
    (hop : ¬ opReconocida op)
    (hgen : generar_precios p0 TOTAL_UNIDADES PASO dir = Except.ok precios) :
    precios.length = 9
    ∧ (asignar_lotes p0 precios op).length = 7
    ∧ mainTrace p0 dir op = [Step.generate, Step.assign, Step.length_error]
    ∧ Step.metrics ∉ mainTrace p0 dir op := by
  have hform : ∃ f : ℕ → ℚ, precios = (List.range 9).map f := by
    by_cases hd1 : dir = "bajada"
    · subst hd1
      rw [generar_bajada] at hgen
      exact ⟨_, (Except.ok.inj hgen).symm⟩
    · by_cases hd2 : dir = "subida"
      · subst hd2
        rw [generar_subida] at hgen
        exact ⟨_, (Except.ok.inj hgen).symm⟩
      · simp only [generar_precios, if_neg hd1, if_neg hd2] at hgen
        exact Except.noConfusion hgen
  obtain ⟨f, rfl⟩ := hform
  have hop4 : ¬ (op = 3) ∧ ¬ (op = 4) ∧ ¬ (op = 5) ∧ ¬ (op = 6) := by
    simp only [opReconocida, not_or] at hop
    exact ⟨hop.2.2.1, hop.2.2.2.1, hop.2.2.2.2.1, hop.2.2.2.2.2.1⟩
  have hasg : asignar_lotes p0 ((List.range 9).map f) op
      = (lotesBase p0 ((List.range 9).map f) op).map (fun lote => lote / DIVISOR_LOTE) := by
    simp only [asignar_lotes, hop4.1, hop4.2.1, hop4.2.2.1, hop4.2.2.2, if_neg,
      if_false, reduceIte]
  have hlen7 : (asignar_lotes p0 ((List.range 9).map f) op).length = 7 := by
    rw [hasg, List.length_map, lotesBase_no_reconocida p0 op hop f]
    rfl
  have hlen9 : ((List.range 9).map f).length = 9 := by simp
  have htr : mainTrace p0 dir op = [Step.generate, Step.assign, Step.length_error] := by
    simp only [mainTrace, hgen]
    rw [if_pos (by rw [hlen7, hlen9]; norm_num)]
  exact ⟨hlen9, hlen7, htr, by rw [htr]; decide⟩

/-- Witness for C8 amended at the unrecognized option 8 on the falling
ladder from 2700. -/
theorem C8_witness :
    (¬ opReconocida 8)
    ∧ generar_precios 2700 TOTAL_UNIDADES PASO "bajada"
        = Except.ok ((List.range 9).map (fun i : ℕ => (2700 : ℚ) - (i : ℚ) * PASO))
    ∧ (((List.range 9).map (fun i : ℕ => (2700 : ℚ) - (i : ℚ) * PASO)).length = 9
      ∧ (asignar_lotes 2700 ((List.range 9).map (fun i : ℕ => (2700 : ℚ) - (i : ℚ) * PASO)) 8).length = 7
      ∧ mainTrace 2700 "bajada" 8 = [Step.generate, Step.assign, Step.length_error]
      ∧ Step.metrics ∉ mainTrace 2700 "bajada" 8) :=
  ⟨by decide, generar_bajada 2700,
    C8_unrecognized_profile 2700 "bajada" 8 _ (by decide) (generar_bajada 2700)⟩

/-- Counterexample to C8 as stated: at the unrecognized option 8,
`asignar_lotes` raises nothing and produces a concrete 7-element lot
sequence (indices 5 and 7 skipped) instead of rejecting the input; the
failure that main reports is the length mismatch, not an InvalidEnum
from lot assignment. -/
theorem C8_counterexample :
    asignar_lotes 2700 ((List.range 9).map (fun i : ℕ => (2700 : ℚ) - (i : ℚ) * PASO)) 8
      = [1.0 / DIVISOR_LOTE, 1.4 / DIVISOR_LOTE, 2.4 / DIVISOR_LOTE, 2 / DIVISOR_LOTE,
         (2.4 * 1.3) / DIVISOR_LOTE, (3 * 1.5) / DIVISOR_LOTE, (4 * 1.5) / DIVISOR_LOTE]
    ∧ (asignar_lotes 2700 ((List.range 9).map (fun i : ℕ => (2700 : ℚ) - (i : ℚ) * PASO)) 8).length
        ≠ ((List.range 9).map (fun i : ℕ => (2700 : ℚ) - (i : ℚ) * PASO)).length
    ∧ mainTrace 2700 "bajada" 8 = [Step.generate, Step.assign, Step.length_error] := by
  have hop : ¬ opReconocida (8 : ℤ) := by decide
  have hb := lotesBase_no_reconocida 2700 8 hop (fun i : ℕ => (2700 : ℚ) - (i : ℚ) * PASO)
  have ha : asignar_lotes 2700 ((List.range 9).map (fun i : ℕ => (2700 : ℚ) - (i : ℚ) * PASO)) 8
      = (lotesBase 2700 ((List.range 9).map (fun i : ℕ => (2700 : ℚ) - (i : ℚ) * PASO)) 8).map
          (fun lote => lote / DIVISOR_LOTE) := rfl
  have hlist : asignar_lotes 2700 ((List.range 9).map (fun i : ℕ => (2700 : ℚ) - (i : ℚ) * PASO)) 8
      = [1.0 / DIVISOR_LOTE, 1.4 / DIVISOR_LOTE, 2.4 / DIVISOR_LOTE, 2 / DIVISOR_LOTE,
         (2.4 * 1.3) / DIVISOR_LOTE, (3 * 1.5) / DIVISOR_LOTE, (4 * 1.5) / DIVISOR_LOTE] := by
    rw [ha, hb]
    rfl
  have htr : mainTrace 2700 "bajada" 8 = [Step.generate, Step.assign, Step.length_error] := by
    simp only [mainTrace, generar_bajada (2700 : ℚ)]
    rw [if_pos (by rw [hlist]; simp)]
  exact ⟨hlist, by rw [hlist]; simp, htr⟩

/-- C9 amended: no selectable configuration is baseline-only.  For every
recognized profile, indices 0..8 are sized by the index-position table,
and the difference-based table (amended at the 54-55 boundary) governs
only the indices of at least 9, scaled by the profile formula; the
uniform /1.5932 scaling is the default branch shared by Neutral,
Aggressive and SemiConservative. -/
theorem C9_no_baseline_mode (p0 : ℚ) (precios : List ℚ) (op : ℤ) (i : ℕ)
    (hop : opReconocida op) (h9 : 9 ≤ i) (hi : i < precios.length) :
    (asignar_lotes p0 precios op).getD i 0
      = specEscala op (specDiffTableAmended (|p0 - precios.getD i 0|))
    ∧ ∀ j, j < precios.length → j ≤ 8 →
        (lotesBase p0 precios op).getD j 0 = specIndexLot op j := by
  constructor
  · have hilen : i < (lotesBase p0 precios op).length := by
      rw [lotesBase_length p0 precios op hop]; exact hi
    rw [asignar_lotes_eq_map p0 precios op hop, map_getD _ _ 0 0 i hilen,
      lotesBase_diferencia_amended p0 precios op i hop h9 hi]
  · intro j hj hj8
    exact lotesBase_indice p0 precios op j hop hj hj8

/-- Witness for C9 amended at profile Neutral, index 9, on a ten-level
list. -/
theorem C9_witness :
    opReconocida 1 ∧ 9 ≤ 9
    ∧ 9 < ([2700, 2685, 2670, 2655, 2640, 2625, 2610, 2595, 2580, 2565] : List ℚ).length
    ∧ ((asignar_lotes 2700 [2700, 2685, 2670, 2655, 2640, 2625, 2610, 2595, 2580, 2565] 1).getD 9 0
        = specEscala 1 (specDiffTableAmended
            (|(2700 : ℚ) - ([2700, 2685, 2670, 2655, 2640, 2625, 2610, 2595, 2580, 2565] : List ℚ).getD 9 0|))
      ∧ ∀ j, j < ([2700, 2685, 2670, 2655, 2640, 2625, 2610, 2595, 2580, 2565] : List ℚ).length → j ≤ 8 →
          (lotesBase 2700 [2700, 2685, 2670, 2655, 2640, 2625, 2610, 2595, 2580, 2565] 1).getD j 0
            = specIndexLot 1 j) :=
  ⟨by decide, by decide, by decide,
    C9_no_baseline_mode 2700 _ 1 9 (by decide) (by decide) (by decide)⟩

/-- Counterexample to C9 as stated: for each of the seven selectable
profiles, the lot at index 0 of the source ladder differs from the
claimed baseline lot (difference table alone scaled by /1.5932), so no
selectable configuration is the claimed baseline mode. -/
theorem C9_counterexample :
    (asignar_lotes 2700 [2700, 2685, 2670, 2655, 2640, 2625, 2610, 2595, 2580] 1).getD 0 0
        ≠ (baselineLots 2700 [2700, 2685, 2670, 2655, 2640, 2625, 2610, 2595, 2580]).getD 0 0
    ∧ (asignar_lotes 2700 [2700, 2685, 2670, 2655, 2640, 2625, 2610, 2595, 2580] 2).getD 0 0
        ≠ (baselineLots 2700 [2700, 2685, 2670, 2655, 2640, 2625, 2610, 2595, 2580]).getD 0 0
    ∧ (asignar_lotes 2700 [2700, 2685, 2670, 2655, 2640, 2625, 2610, 2595, 2580] 3).getD 0 0
        ≠ (baselineLots 2700 [2700, 2685, 2670, 2655, 2640, 2625, 2610, 2595, 2580]).getD 0 0
    ∧ (asignar_lotes 2700 [2700, 2685, 2670, 2655, 2640, 2625, 2610, 2595, 2580] 4).getD 0 0
        ≠ (baselineLots 2700 [2700, 2685, 2670, 2655, 2640, 2625, 2610, 2595, 2580]).getD 0 0
    ∧ (asignar_lotes 2700 [2700, 2685, 2670, 2655, 2640, 2625, 2610, 2595, 2580] 5).getD 0 0
        ≠ (baselineLots 2700 [2700, 2685, 2670, 2655, 2640, 2625, 2610, 2595, 2580]).getD 0 0
    ∧ (asignar_lotes 2700 [2700, 2685, 2670, 2655, 2640, 2625, 2610, 2595, 2580] 6).getD 0 0
        ≠ (baselineLots 2700 [2700, 2685, 2670, 2655, 2640, 2625, 2610, 2595, 2580]).getD 0 0
    ∧ (asignar_lotes 2700 [2700, 2685, 2670, 2655, 2640, 2625, 2610, 2595, 2580] 7).getD 0 0
        ≠ (baselineLots 2700 [2700, 2685, 2670, 2655, 2640, 2625, 2610, 2595, 2580]).getD 0 0 := by
  have hlen0 : (0 : ℕ) < ([2700, 2685, 2670, 2655, 2640, 2625, 2610, 2595, 2580] : List ℚ).length := by
    norm_num
  have hbase : ∀ op : ℤ, opReconocida op →
      (asignar_lotes 2700 [2700, 2685, 2670, 2655, 2640, 2625, 2610, 2595, 2580] op).getD 0 0
        = specEscala op 1.0 := by
    intro op hop
    rw [asignar_lotes_eq_map _ _ _ hop,
      map_getD _ _ 0 0 0 (by rw [lotesBase_length _ _ _ hop]; exact hlen0),
      lotesBase_getD _ _ _ hop 0 hlen0]
    rfl
  have hbl : (baselineLots 2700 [2700, 2685, 2670, 2655, 2640, 2625, 2610, 2595, 2580]).getD 0 0
      = 0.5 / DIVISOR_LOTE := by
    simp only [baselineLots]
    rw [map_getD _ _ 0 0 0 hlen0]
    norm_num [specDiffTable]
  refine ⟨?_, ?_, ?_, ?_, ?_, ?_, ?_⟩ <;>
    rw [hbase _ (by decide), hbl] <;> norm_num [specEscala, DIVISOR_LOTE]

theorem nonneg_lote_por_diferencia (d : ℚ) : 0 ≤ lote_por_diferencia d := by
  unfold lote_por_diferencia
  split_ifs <;> norm_num

theorem nonneg_loteBase1 (p0 : ℚ) (op : ℤ) (hop : opReconocida op) (i : ℕ) (pr : ℚ) :
    0 ≤ loteBase1 p0 op i pr := by
  rcases i with _|_|_|_|_|_|_|_|_|n
  · norm_num [loteBase1]
  · norm_num [loteBase1]
  · norm_num [loteBase1]
  · norm_num [loteBase1]
  · norm_num [loteBase1]
  · rcases hop with h | h | h | h | h | h | h <;> subst h <;> norm_num [loteBase1]
  · norm_num [loteBase1]
  · rcases hop with h | h | h | h | h | h | h <;> subst h <;> norm_num [loteBase1]
  · norm_num [loteBase1]
  · exact nonneg_lote_por_diferencia _

theorem lotesBaseAux_nonneg (p0 : ℚ) (op : ℤ) (hop : opReconocida op) :
    ∀ (j : ℕ) (l : List ℚ) (x : ℚ), x ∈ lotesBaseAux p0 op j l → 0 ≤ x := by
  intro j l
  induction l generalizing j with
  | nil => intro x hx; simp [lotesBaseAux] at hx
  | cons a l ih =>
    intro x hx
    simp only [lotesBaseAux, loteBase_reconocida p0 op hop, List.singleton_append,
      List.mem_cons] at hx
    rcases hx with rfl | hx
    · exact nonneg_loteBase1 p0 op hop j a
    · exact ih (j + 1) x hx

theorem asignar_lotes_nonneg (p0 : ℚ) (pr : List ℚ) (op : ℤ) (hop : opReconocida op) :
    ∀ l ∈ asignar_lotes p0 pr op, 0 ≤ l := by
  intro l hl
  rw [asignar_lotes_eq_map p0 pr op hop] at hl
  obtain ⟨x, hx, rfl⟩ := List.mem_map.mp hl
  have hx0 : 0 ≤ x := lotesBaseAux_nonneg p0 op hop 0 pr x hx
  rcases hop with h | h | h | h | h | h | h <;> subst h
  · exact div_nonneg hx0 (by norm_num)
  · exact div_nonneg hx0 (by norm_num)
  · exact div_nonneg hx0 (by norm_num)
  · exact div_nonneg (mul_nonneg hx0 (by norm_num)) (by norm_num)
  · exact div_nonneg (mul_nonneg hx0 (by norm_num)) (by norm_num)
  · exact div_nonneg (mul_nonneg (mul_nonneg hx0 (by norm_num)) (by norm_num)) (by norm_num)
  · exact div_nonneg hx0 (by norm_num)

theorem cumsumFrom_ge (acc : ℚ) (xs : List ℚ) (h : ∀ x ∈ xs, 0 ≤ x) :
    ∀ c ∈ cumsumFrom acc xs, acc ≤ c := by
  induction xs generalizing acc with
  | nil => intro c hc; simp [cumsumFrom] at hc
  | cons x xs ih =>
    intro c hc
    simp only [cumsumFrom, List.mem_cons] at hc
    have hx : 0 ≤ x := h x (by simp)
    rcases hc with rfl | hc
    · linarith
    · have := ih (acc + x) (fun z hz => h z (by simp [hz])) c hc
      linarith

theorem cumsumFrom_chain (acc : ℚ) (xs : List ℚ) (h : ∀ x ∈ xs, 0 ≤ x) :
    List.Chain' (· ≤ ·) (cumsumFrom acc xs) := by
  induction xs generalizing acc with
  | nil => simp [cumsumFrom]
  | cons x xs ih =>
    simp only [cumsumFrom]
    rw [List.chain'_cons']
    refine ⟨?_, ih (acc + x) (fun z hz => h z (by simp [hz]))⟩
    intro b hb
    exact cumsumFrom_ge (acc + x) xs (fun z hz => h z (by simp [hz])) b
      (List.mem_of_mem_head? hb)

theorem cumsum_mem_pos (lots : List ℚ) (hnonneg : ∀ l ∈ lots, 0 ≤ l)
    (hpos0 : 0 < lots.getD 0 0) : ∀ c ∈ cumsum lots, 0 < c := by
  cases lots with
  | nil => intro c hc; simp [cumsum, cumsumFrom] at hc
  | cons x xs =>
    intro c hc
    simp only [List.getD_cons_zero] at hpos0
    simp only [cumsum, cumsumFrom, List.mem_cons] at hc
    rcases hc with rfl | hc
    · linarith
    · have := cumsumFrom_ge (0 + x) xs
        (fun z hz => hnonneg z (by simp [hz])) c hc
      linarith

/-- C10: for every valid input triple, every adjusted lot is
nonnegative, the lot at index 0 is strictly positive, the cumulative
lot is the running sum of the lots, is non-decreasing, and is strictly
positive at every level, so the break-even denominator of the engine is
never zero on pipeline tables. -/
theorem C10_lot_invariants (p0 : ℚ) (dir : String) (op : ℤ)
    (hdir : dir = "bajada" ∨ dir = "subida") (hop : opReconocida op) :
    ∃ precios, generar_precios p0 TOTAL_UNIDADES PASO dir = Except.ok precios ∧
      ((∀ l ∈ asignar_lotes p0 precios op, 0 ≤ l)
      ∧ 0 < (asignar_lotes p0 precios op).getD 0 0
      ∧ (∀ i, i < precios.length →
          (cumsum (asignar_lotes p0 precios op)).getD i 0
            = ∑ k in Finset.range (i + 1), (asignar_lotes p0 precios op).getD k 0)
      ∧ List.Chain' (· ≤ ·) (cumsum (asignar_lotes p0 precios op))
      ∧ (∀ c ∈ cumsum (asignar_lotes p0 precios op), 0 < c)
      ∧ (∀ v ∈ (calcular_acumulados precios (asignar_lotes p0 precios op) p0 dir).breakEven,
          v ≠ none)) := by
  have hgen : ∃ f : ℕ → ℚ, generar_precios p0 TOTAL_UNIDADES PASO dir
      = Except.ok ((List.range 9).map f) := by
    rcases hdir with rfl | rfl
    · exact ⟨_, generar_bajada p0⟩
    · exact ⟨_, generar_subida p0⟩
  obtain ⟨f, hf⟩ := hgen
  refine ⟨(List.range 9).map f, hf, ?_⟩
  have hprlen : ((List.range 9).map f).length = 9 := by simp
  have hlotlen : (asignar_lotes p0 ((List.range 9).map f) op).length = 9 := by
    rw [asignar_lotes_length p0 _ op hop, hprlen]
  have hnn : ∀ l ∈ asignar_lotes p0 ((List.range 9).map f) op, 0 ≤ l :=
    asignar_lotes_nonneg p0 _ op hop
  have h0 : (asignar_lotes p0 ((List.range 9).map f) op).getD 0 0 = specEscala op 1.0 := by
    rw [asignar_lotes_eq_map p0 _ op hop,
      map_getD _ _ 0 0 0 (by rw [lotesBase_length p0 _ op hop, hprlen]; norm_num),
      lotesBase_getD p0 _ op hop 0 (by rw [hprlen]; norm_num)]
    rfl
  have h0pos : 0 < (asignar_lotes p0 ((List.range 9).map f) op).getD 0 0 := by
    rw [h0]
    rcases hop with h | h | h | h | h | h | h <;> subst h <;> norm_num [specEscala]
  refine ⟨hnn, h0pos, ?_, ?_, ?_, ?_⟩
  · intro i hi
    exact cumsum_getD _ i (by rw [hlotlen, ← hprlen]; exact hi)
  · exact cumsumFrom_chain 0 _ hnn
  · exact cumsum_mem_pos _ hnn h0pos
  · intro v hv
    simp only [calcular_acumulados, colBreakEven] at hv
    obtain ⟨i, hilen, rfl⟩ := List.mem_iff_getElem.mp hv
    have hiA : i < (cumsum (asignar_lotes p0 ((List.range 9).map f) op)).length := by
      rw [List.length_zipWith] at hilen
      exact lt_of_lt_of_le hilen (by simp [min_le_right])
    rw [List.getElem_zipWith]
    have hmem : (cumsum (asignar_lotes p0 ((List.range 9).map f) op))[i]
        ∈ cumsum (asignar_lotes p0 ((List.range 9).map f) op) := List.getElem_mem hiA
    have hposA := cumsum_mem_pos _ hnn h0pos _ hmem
    have hne : ¬((cumsum (asignar_lotes p0 ((List.range 9).map f) op))[i] * LOTES_A_UNIDADES = 0) := by
      have h100 : (0 : ℚ) < LOTES_A_UNIDADES := by norm_num [LOTES_A_UNIDADES]
      exact ne_of_gt (mul_pos hposA h100)
    simp [evDiv, hne]

/-- Witness for C10 at start 2700, falling, profile Neutral. -/
theorem C10_witness :
    ("bajada" = "bajada" ∨ "bajada" = "subida") ∧ opReconocida 1
    ∧ (∃ precios, generar_precios 2700 TOTAL_UNIDADES PASO "bajada" = Except.ok precios ∧
      ((∀ l ∈ asignar_lotes 2700 precios 1, 0 ≤ l)
      ∧ 0 < (asignar_lotes 2700 precios 1).getD 0 0
      ∧ (∀ i, i < precios.length →
          (cumsum (asignar_lotes 2700 precios 1)).getD i 0
            = ∑ k in Finset.range (i + 1), (asignar_lotes 2700 precios 1).getD k 0)
      ∧ List.Chain' (· ≤ ·) (cumsum (asignar_lotes 2700 precios 1))
      ∧ (∀ c ∈ cumsum (asignar_lotes 2700 precios 1), 0 < c)
      ∧ (∀ v ∈ (calcular_acumulados precios (asignar_lotes 2700 precios 1) 2700 "bajada").breakEven,
          v ≠ none))) :=
  ⟨Or.inl rfl, by decide,
    C10_lot_invariants 2700 "bajada" 1 (Or.inl rfl) (by decide)⟩

end Calcu
